import Mathlib

/-!
Shallow embedding of the ChessVision move-classification pipeline
(src/ChessReview/main.py and src/ChessReview2/main.py).

Engine scores are integers in centipawns (python-chess returns an int from
score(mate_score=10000), and missing scores become 0 via the "or 0" guard).
Decimal threshold literals of the source are modelled exactly as rationals.
The float value inf returned by get_evaluation_loss_threshold for the
classifications outside the six quadratic curves is modelled as the
Option value none, with the comparison "loss <= inf" always true.
-/

namespace ChessVision

/-- The Classification enum of src/ChessReview/main.py lines 19-30
(identical in src/ChessReview2/main.py lines 23-34). -/
inductive Classification where
  | brilliant
  | great
  | best
  | excellent
  | good
  | inaccuracy
  | mistake
  | miss
  | blunder
  | book
  | forced
deriving DecidableEq

/-- classification_values (src/ChessReview/main.py lines 32-44): the quality
score of each classification used by the aggregator. -/
def classification_values : Classification → ℚ
  | .blunder => 0
  | .mistake => 2/10
  | .miss => 3/10
  | .inaccuracy => 4/10
  | .good => 65/100
  | .excellent => 9/10
  | .best => 1
  | .great => 1
  | .brilliant => 1
  | .book => 1
  | .forced => 1

/-- centipawn_classifications (src/ChessReview/main.py lines 46-54): the
ordered candidate list walked by the centipawn classification stage. -/
def centipawn_classifications : List Classification :=
  [.best, .excellent, .good, .inaccuracy, .miss, .mistake, .blunder]

/-- get_evaluation_loss_threshold (src/ChessReview/main.py lines 95-110):
per-candidate quadratic loss tolerance max(a*x^2 + b*x + c, 0) in the
pre-move evaluation magnitude x; the final else branch returns float inf,
modelled as none. -/
def get_evaluation_loss_threshold (classif : Classification) (prev_eval : ℤ) : Option ℚ :=
  let x : ℚ := |(prev_eval : ℚ)|
  match classif with
  | .best => some (max ((1/10000)*x^2 + (236/10000)*x - 37143/10000) 0)
  | .excellent => some (max ((2/10000)*x^2 + (1231/10000)*x + 275455/10000) 0)
  | .good => some (max ((2/10000)*x^2 + (2643/10000)*x + 605455/10000) 0)
  | .inaccuracy => some (max ((2/10000)*x^2 + (3624/10000)*x + 1080909/10000) 0)
  | .miss => some (max ((25/100000)*x^2 + (38255/100000)*x + 1669541/10000) 0)
  | .mistake => some (max ((3/10000)*x^2 + (4027/10000)*x + 2258182/10000) 0)
  | _ => none

/-- The comparison eval_loss <= threshold of the centipawn loop (line 195),
where the threshold may be the float inf (modelled as none): any loss is
below inf. -/
def loss_fits (eval_loss : ℤ) (threshold : Option ℚ) : Bool :=
  match threshold with
  | some t => decide ((eval_loss : ℚ) ≤ t)
  | none => true

/-- eval_loss = abs(pre_eval - post_eval) (src/ChessReview/main.py line 188). -/
def eval_loss (pre_eval post_eval : ℤ) : ℤ :=
  |pre_eval - post_eval|

/-- The centipawn classification loop (src/ChessReview/main.py lines 192-198):
walk centipawn_classifications, pick the first whose threshold admits the
loss, defaulting to Blunder. -/
def stage2Classify (pre_eval eval_loss : ℤ) : Classification :=
  (centipawn_classifications.find?
      (fun classif => loss_fits eval_loss (get_evaluation_loss_threshold classif pre_eval))).getD
    Classification.blunder

/-- The initial classification (src/ChessReview/main.py lines 190-198): Book
when the move was found in the opening book, otherwise the centipawn loop. -/
def initialClassification (is_book : Bool) (pre_eval post_eval : ℤ) : Classification :=
  if is_book then Classification.book
  else stage2Classify pre_eval (eval_loss pre_eval post_eval)

/-- The missed-opportunity override (src/ChessReview/main.py lines 200-204):
is_winning = abs(pre_eval) >= 500; is_forced_win = the pre-move score is a
mate score whose side-to-move-relative mate distance is <= 3; when the side
is winning, the played move differs from the engine best move and the loss
reaches 300 (or is_forced_win), the classification becomes Miss. -/
def missOverride (pre_eval eval_loss : ℤ) (pre_is_mate : Bool) (pre_mate_dist : ℤ)
    (is_best_move : Bool) (classification : Classification) : Classification :=
  let is_winning := |pre_eval| ≥ 500
  let is_forced_win := pre_is_mate = true ∧ pre_mate_dist ≤ 3
  if is_winning ∧ is_best_move = false ∧ (eval_loss ≥ 300 ∨ is_forced_win) then
    Classification.miss
  else classification

/-- The brilliancy upgrade (src/ChessReview/main.py lines 206-211): only a
Best classification is upgraded; the Great branch (pre_eval < -150 and
post_eval >= 150) is tested first, with the Brilliant branch
(pre_eval < -300 and post_eval >= 300) as its elif. -/
def brilliancyUpgrade (pre_eval post_eval : ℤ) (classification : Classification) : Classification :=
  if classification = Classification.best then
    if pre_eval < -150 ∧ post_eval ≥ 150 then Classification.great
    else if pre_eval < -300 ∧ post_eval ≥ 300 then Classification.brilliant
    else Classification.best
  else classification

/-- The full per-move classification chain of src/ChessReview/main.py lines
188-211 (identically src/ChessReview2/main.py lines 225-249), with the
played-move-equals-best-move comparison abstracted into the Boolean
is_best_move, which is where the two pipelines differ. -/
def classifyMove (is_book : Bool) (pre_eval post_eval : ℤ) (pre_is_mate : Bool)
    (pre_mate_dist : ℤ) (is_best_move : Bool) : Classification :=
  brilliancyUpgrade pre_eval post_eval
    (missOverride pre_eval (eval_loss pre_eval post_eval) pre_is_mate pre_mate_dist
      is_best_move
      (initialClassification is_book pre_eval post_eval))

/-- A chess move carrying its two textual notations: the SAN spelling (as a
PGN or JSON token, e.g. Nf3) and the UCI spelling (e.g. g1f3). On a fixed
position each determines the other, so UCI identity is move identity. -/
structure MoveT where
  san : String
  uci : String
deriving DecidableEq

/-- The PGN pipeline comparison move != best_move (src/ChessReview/main.py
line 203), negated: the played chess.Move object equals the optional best
chess.Move object; python-chess Move equality is identity of the move, here
UCI identity; equality with None is always false. -/
def pgnIsBestMove (played : MoveT) (best_move : Option MoveT) : Bool :=
  match best_move with
  | some b => played.uci == b.uci
  | none => false

/-- The JSON pipeline comparison token != (best_move.uci() if best_move else
None) (src/ChessReview2/main.py line 241), negated: the raw SAN token string
equals the UCI spelling of the optional best move; equality with None is
always false. -/
def jsonIsBestMove (token : String) (best_move : Option MoveT) : Bool :=
  match best_move with
  | some b => token == b.uci
  | none => false

/-- Per-move classification as computed by analyze_pgn_with_stockfish
(src/ChessReview/main.py lines 188-211). -/
def pgnClassifyMove (is_book : Bool) (pre_eval post_eval : ℤ) (pre_is_mate : Bool)
    (pre_mate_dist : ℤ) (played : MoveT) (best_move : Option MoveT) : Classification :=
  classifyMove is_book pre_eval post_eval pre_is_mate pre_mate_dist
    (pgnIsBestMove played best_move)

/-- Per-move classification as computed by analyze_json_game_with_stockfish
(src/ChessReview2/main.py lines 225-249); the played move enters as its SAN
token. -/
def jsonClassifyMove (is_book : Bool) (pre_eval post_eval : ℤ) (pre_is_mate : Bool)
    (pre_mate_dist : ℤ) (played : MoveT) (best_move : Option MoveT) : Classification :=
  classifyMove is_book pre_eval post_eval pre_is_mate pre_mate_dist
    (jsonIsBestMove played.san best_move)

inductive GamePhase where
  | opening
  | middlegame
  | endgame
deriving DecidableEq

/-- python-chess piece types, in the order of chess.PIECE_TYPES. -/
inductive PieceType where
  | pawn
  | knight
  | bishop
  | rook
  | queen
  | king
deriving DecidableEq

inductive Color where
  | white
  | black
deriving DecidableEq

/-- The piece-value dictionary of src/ChessReview/main.py lines 76-82 (KING
is skipped before the lookup, so its entry is never consulted). -/
def piece_value : PieceType → ℕ
  | .pawn => 1
  | .knight => 3
  | .bishop => 3
  | .rook => 5
  | .queen => 9
  | .king => 0

/-- The iteration order of the material loop: for color in [WHITE, BLACK],
for piece_type in chess.PIECE_TYPES. -/
def material_loop_index : List (Color × PieceType) :=
  [Color.white, Color.black].flatMap (fun color =>
    [PieceType.pawn, PieceType.knight, PieceType.bishop, PieceType.rook,
      PieceType.queen, PieceType.king].map (fun pt => (color, pt)))

/-- The material loop of detect_game_phase (src/ChessReview/main.py lines
67-86): accumulate (total_material, queens) over both colors and all piece
types, skipping the king. The board is abstracted to its piece counts. -/
def material_and_queens (pieces : Color → PieceType → ℕ) : ℕ × ℕ :=
  material_loop_index.foldl
    (fun acc cp =>
      if cp.2 = PieceType.king then acc
      else
        (acc.1 + pieces cp.1 cp.2 * piece_value cp.2,
         acc.2 + if cp.2 = PieceType.queen then pieces cp.1 cp.2 else 0))
    (0, 0)

/-- detect_game_phase (src/ChessReview/main.py lines 63-93, identical in
src/ChessReview2/main.py lines 71-98): Opening while the in_opening flag
holds, else Endgame when total material <= 24 or there are no queens and
total material <= 24 * 2, else Middlegame. -/
def detect_game_phase (pieces : Color → PieceType → ℕ) (in_opening : Bool) : GamePhase :=
  if in_opening then GamePhase.opening
  else
    let tq := material_and_queens pieces
    if tq.1 ≤ 24 ∨ (tq.2 = 0 ∧ tq.1 ≤ 24 * 2) then GamePhase.endgame
    else GamePhase.middlegame

/-- rating_order (src/ChessReview/main.py lines 259-268): the ordered
rating table walked by get_phase_rating. -/
def rating_order : List (Classification × ℚ) :=
  [(.brilliant, 95/100), (.great, 85/100), (.best, 75/100), (.excellent, 65/100),
   (.good, 5/10), (.inaccuracy, 35/100), (.miss, 25/100), (.mistake, 15/100)]

/-- get_phase_rating (src/ChessReview/main.py lines 252-270): Good for an
empty list, otherwise the first entry of rating_order whose threshold the
average quality score reaches, defaulting to Blunder. -/
def get_phase_rating (classified_moves : List Classification) : Classification :=
  if classified_moves.isEmpty then Classification.good
  else
    let total : ℚ := (classified_moves.map classification_values).sum
    let average := total / (classified_moves.length : ℚ)
    ((rating_order.find? (fun ct => decide (average ≥ ct.2))).map Prod.fst).getD
      Classification.blunder

/-- What one loop iteration of either pipeline observes about the board
after the played move, for phase tracking: whether is_book_move returned a
move, and the piece counts. -/
structure MoveObservation where
  book_found : Bool
  pieces : Color → PieceType → ℕ

/-- The in_opening flag update (src/ChessReview/main.py lines 184-185,
src/ChessReview2/main.py lines 222-223): cleared on the first move the book
lookup misses, otherwise left alone. -/
def opening_flag_step (in_opening : Bool) (obs : MoveObservation) : Bool :=
  if obs.book_found = false ∧ in_opening = true then false else in_opening

/-- The phase assigned to each move of a game (src/ChessReview/main.py lines
182-185 inside the move loop): the phase is computed from the flag before
the flag update of the same iteration. -/
def game_phases : Bool → List MoveObservation → List GamePhase
  | _, [] => []
  | in_opening, obs :: rest =>
      detect_game_phase obs.pieces in_opening ::
        game_phases (opening_flag_step in_opening obs) rest

/-- The facets of a chess.Board consumed by the analysis loop: piece counts
(for detect_game_phase), the fullmove number and the first four FEN fields
(for is_book_move), and the side to move (for player attribution). -/
structure BoardSnap where
  pieces : Color → PieceType → ℕ
  fullmove_number : ℕ
  fen_key : String
  turn_white : Bool

/-- is_book_move (src/ChessReview/main.py lines 137-141): None once the
fullmove number exceeds max_depth, otherwise the opening-book lookup of the
counter-stripped FEN. The book dict is modelled as an association list. -/
def is_book_move (opening_book : List (String × String)) (max_depth : ℕ)
    (board : BoardSnap) : Option String :=
  if board.fullmove_number > max_depth then none
  else (opening_book.find? (fun kv => kv.1 == board.fen_key)).map Prod.snd

inductive Player where
  | white
  | black
  | unknown
deriving DecidableEq

/-- One entry of the move_analysis list (src/ChessReview2/main.py lines
207-212 for the error shape, lines 256-263 for the analyzed shape);
evaluations are reported in pawns, i.e. divided by 100. -/
inductive MoveRecord where
  | errRec (move_number : ℕ) (player : Player) (move : String) (error : String)
  | okRec (move_number : ℕ) (player : Player) (move : String)
      (evaluation : ℚ) (evaluation_loss : ℚ) (classification : Classification)
deriving DecidableEq

/-- The engine reply for one position, as consumed by the loop:
score(mate_score=10000) or 0, is_mate(), relative.mate(), and the first
principal-variation move. -/
structure EngineReply where
  score : ℤ
  is_mate : Bool
  mate_dist : ℤ
  best_move : Option MoveT

/-- The outcome of board.push_san(token) (src/ChessReview2/main.py lines
203-213): a ValueError with its message, or the successor board. -/
inductive PushOutcome where
  | illegal (msg : String)
  | legal (new_board : BoardSnap)

/-- The external data consumed while processing one token: the pre-move
engine reply, the push outcome, and (consulted only on success) the
post-move engine reply. -/
structure TokenEnv where
  pre : EngineReply
  outcome : PushOutcome
  post : EngineReply

/-- The mutable state of the analyze_json_game_with_stockfish loop
(src/ChessReview2/main.py lines 175-188): the board, the in_opening flag,
the running move number, the move_analysis list, and the per-player and
per-phase classification accumulators (modelled as keyed append lists). -/
structure JsonState where
  board : BoardSnap
  in_opening : Bool
  move_number : ℕ
  move_analysis : List MoveRecord
  class_acc : List (Player × GamePhase × Classification)
  phase_acc : List (GamePhase × Classification)

/-- One iteration of the token loop of analyze_json_game_with_stockfish
(src/ChessReview2/main.py lines 197-264). -/
def jsonStep (opening_book : List (String × String)) (st : JsonState)
    (token : String) (env : TokenEnv) : JsonState :=
  let pre_eval := env.pre.score
  let best_move := env.pre.best_move
  match env.outcome with
  | .illegal msg =>
      { st with move_analysis :=
          st.move_analysis ++
            [MoveRecord.errRec st.move_number Player.unknown token ("Invalid move: " ++ msg)] }
  | .legal new_board =>
      let post_eval := env.post.score
      let book_move := is_book_move opening_book 8 new_board
      let current_phase := detect_game_phase new_board.pieces st.in_opening
      let in_opening' :=
        if book_move.isNone ∧ st.in_opening = true then false else st.in_opening
      let loss := eval_loss pre_eval post_eval
      let classification :=
        classifyMove book_move.isSome pre_eval post_eval env.pre.is_mate env.pre.mate_dist
          (jsonIsBestMove token best_move)
      let player := if new_board.turn_white = false then Player.white else Player.black
      { board := new_board
        in_opening := in_opening'
        move_number := st.move_number + 1
        move_analysis :=
          st.move_analysis ++
            [MoveRecord.okRec st.move_number player token
              ((post_eval : ℚ) / 100) ((loss : ℚ) / 100) classification]
        class_acc := st.class_acc ++ [(player, current_phase, classification)]
        phase_acc := st.phase_acc ++ [(current_phase, classification)] }

/-- The token loop of analyze_json_game_with_stockfish over a list of
tokens, each paired with the external data its iteration consumes. -/
def jsonRun (opening_book : List (String × String)) :
    JsonState → List (String × TokenEnv) → JsonState
  | st, [] => st
  | st, (token, env) :: rest => jsonRun opening_book (jsonStep opening_book st token env) rest

/-! Theorems about the embedded pipeline, one per claim. -/

/-- C1 counterexample: with the classification entering the brilliancy stage
exactly Best, the input preEval = -300, postEval = 300 yields Great, not the
Brilliant the claim demands: the Great branch (preEval < -150, postEval >=
150) is tested first and already fires. -/
theorem c1_counterexample :
    brilliancyUpgrade (-300) 300 Classification.best = Classification.great ∧
    Classification.great ≠ Classification.brilliant := by
  with_unfolding_all decide

/-- C1 (amended): when the classification entering the brilliancy stage is
exactly Best, preEval = -300, postEval = 300 yields Great; preEval = -150,
postEval = 150 yields Best (the Great condition requires preEval strictly
below -150); preEval = -149, postEval = 150 remains Best; and exactly one of
Best and Great results: the Great branch is checked first and its condition
is implied by the Brilliant condition, so the Brilliant elif branch is
unreachable and Great supersedes Brilliant whenever both reversal thresholds
hold. -/
theorem c1_brilliancy_boundaries :
    brilliancyUpgrade (-300) 300 Classification.best = Classification.great ∧
    brilliancyUpgrade (-150) 150 Classification.best = Classification.best ∧
    brilliancyUpgrade (-149) 150 Classification.best = Classification.best ∧
    (∀ pre_eval post_eval : ℤ,
      brilliancyUpgrade pre_eval post_eval Classification.best = Classification.best ∨
      brilliancyUpgrade pre_eval post_eval Classification.best = Classification.great) := by
  refine ⟨by with_unfolding_all decide, by with_unfolding_all decide,
    by with_unfolding_all decide, ?_⟩
  intro pre_eval post_eval
  by_cases h1 : pre_eval < -150 ∧ post_eval ≥ 150
  · right
    simp [brilliancyUpgrade, h1]
  · by_cases h2 : pre_eval < -300 ∧ post_eval ≥ 300
    · exact absurd ⟨by omega, by omega⟩ h1
    · left
      simp [brilliancyUpgrade, h1, h2]

/-- C2 counterexample: at preEval = -9999 (the side to move is being mated:
the engine reports a mate score with side-to-move-relative mate distance
-1), a non-best move with evaluationLoss 0 is overridden to Miss, although
the loss is below 300 and the position is a forced loss, not a forced win,
for the side to move: the code tests mate distance <= 3 without requiring it
to be positive. The stage-2 classification at this input is Best, so the
claim says the move stays Best. -/
theorem c2_counterexample :
    classifyMove false (-9999) (-9999) true (-1) false = Classification.miss ∧
    stage2Classify (-9999) (eval_loss (-9999) (-9999)) = Classification.best ∧
    eval_loss (-9999) (-9999) < 300 ∧ ((-1 : ℤ) < 0) := by
  with_unfolding_all decide

/-- C2 (amended): the missed-win stage overrides the classification to Miss
exactly when |preEval| >= 500, the played move is not the engine best move,
and (evaluationLoss >= 300 OR the engine reported a mate score with
side-to-move-relative mate distance <= 3 - a condition that also holds when
the side to move is the one being mated); in particular preEval = 500,
non-best move, evaluationLoss = 300 yields Miss, while evaluationLoss = 299
with no mate score leaves the incoming stage-2 result unchanged. -/
theorem c2_miss_override :
    (∀ c : Classification, missOverride 500 300 false 0 false c = Classification.miss) ∧
    (∀ c : Classification, missOverride 500 299 false 0 false c = c) ∧
    (∀ (pre_eval loss : ℤ) (m : Bool) (d : ℤ) (b : Bool) (c : Classification),
      missOverride pre_eval loss m d b c = Classification.miss ↔
        (c = Classification.miss ∨
          (|pre_eval| ≥ 500 ∧ b = false ∧ (loss ≥ 300 ∨ (m = true ∧ d ≤ 3))))) := by
  refine ⟨?_, ?_, ?_⟩
  · intro c
    simp only [missOverride]
    rw [if_pos (by decide)]
  · intro c
    simp only [missOverride]
    rw [if_neg (by decide)]
  · intro pre_eval loss m d b c
    by_cases h : |pre_eval| ≥ 500 ∧ b = false ∧ (loss ≥ 300 ∨ (m = true ∧ d ≤ 3))
    · simp [missOverride, h]
    · simp [missOverride, h]

/-- C3 counterexample: a book move with preEval = 500, postEval = 200
(evaluationLoss 300) that is not the engine best move is overridden to Miss
by the missed-win stage, which the code does not gate on the Book
classification; the claim says the final classification of every book move
is Book. -/
theorem c3_counterexample :
    classifyMove true 500 200 false 0 false = Classification.miss ∧
    Classification.miss ≠ Classification.book := by
  with_unfolding_all decide

/-- C3 (amended): for a move recognized as a book move, the centipawn stage
is skipped and the brilliancy upgrade (gated on Best) never applies, but the
missed-win override does apply: the final classification is Miss when
|preEval| >= 500, the move is not the engine best move, and the loss reaches
300 or the mate condition holds - and Book otherwise. -/
theorem c3_book_moves :
    ∀ (pre_eval post_eval : ℤ) (m : Bool) (d : ℤ) (b : Bool),
      classifyMove true pre_eval post_eval m d b =
        if |pre_eval| ≥ 500 ∧ b = false ∧
            (eval_loss pre_eval post_eval ≥ 300 ∨ (m = true ∧ d ≤ 3)) then
          Classification.miss
        else Classification.book := by
  intro pre_eval post_eval m d b
  by_cases h : |pre_eval| ≥ 500 ∧ b = false ∧
      (eval_loss pre_eval post_eval ≥ 300 ∨ (m = true ∧ d ≤ 3))
  · simp [classifyMove, initialClassification, missOverride, brilliancyUpgrade, h]
  · simp [classifyMove, initialClassification, missOverride, brilliancyUpgrade, h]

/-- C4 counterexample: a played move that IS the engine best move, with
SAN spelling Nf3 and UCI spelling g1f3, at preEval = 500, postEval = 200
(loss 300): the PGN pipeline compares chess.Move objects, finds the move
best, and classifies Inaccuracy; the JSON pipeline compares the SAN token
against the UCI string, finds them different, and applies the missed-win
override, classifying Miss. -/
theorem c4_counterexample :
    pgnClassifyMove false 500 200 false 0 (MoveT.mk "Nf3" "g1f3")
        (some (MoveT.mk "Nf3" "g1f3")) = Classification.inaccuracy ∧
    jsonClassifyMove false 500 200 false 0 (MoveT.mk "Nf3" "g1f3")
        (some (MoveT.mk "Nf3" "g1f3")) = Classification.miss ∧
    Classification.inaccuracy ≠ Classification.miss := by
  with_unfolding_all decide

/-- C4 (amended): for the same move and identical engine responses, the two
pipelines assign the same classification whenever their best-move
comparisons agree, i.e. whenever the SAN token equals the best move's UCI
string exactly when the played move is the best move; the remaining stages
are identical. They disagree exactly on the missed-win comparison when the
played move is the best move but its SAN spelling differs from its UCI
spelling. -/
theorem c4_pipelines_agree :
    ∀ (is_book : Bool) (pre_eval post_eval : ℤ) (m : Bool) (d : ℤ)
      (played : MoveT) (best_move : Option MoveT),
      pgnIsBestMove played best_move = jsonIsBestMove played.san best_move →
      pgnClassifyMove is_book pre_eval post_eval m d played best_move =
        jsonClassifyMove is_book pre_eval post_eval m d played best_move := by
  intro is_book pre_eval post_eval m d played best_move h
  unfold pgnClassifyMove jsonClassifyMove
  rw [h]

/-- Witness for C4 (amended): at a concrete non-best move the two
comparisons agree and the two pipelines give the same classification. -/
theorem c4_pipelines_agree_witness :
    pgnIsBestMove (MoveT.mk "e4" "e2e4") none = jsonIsBestMove "e4" none ∧
    pgnClassifyMove false 0 0 false 0 (MoveT.mk "e4" "e2e4") none =
      jsonClassifyMove false 0 0 false 0 (MoveT.mk "e4" "e2e4") none :=
  ⟨by with_unfolding_all decide,
    c4_pipelines_agree false 0 0 false 0 (MoveT.mk "e4" "e2e4") none
      (by with_unfolding_all decide)⟩

/-- Stage 2 as the spec words it (spec section 4.5 stage 2), stated for
comparison with stage2Classify: walk the ordered candidate list Best,
Excellent, Good, Inaccuracy, Miss, Mistake and select the first whose
maxLoss threshold at preEval admits the evaluation loss; if none qualifies,
Blunder. -/
def stage2Spec (pre_eval eval_loss : ℤ) : Classification :=
  ([Classification.best, Classification.excellent, Classification.good,
      Classification.inaccuracy, Classification.miss, Classification.mistake].find?
      (fun classif => loss_fits eval_loss (get_evaluation_loss_threshold classif pre_eval))).getD
    Classification.blunder

/-- Helper: when the last element of a candidate list satisfies the
predicate unconditionally, searching the full list with that element as
fallback default is searching the shorter list with the same fallback. -/
theorem find_append_getD {α : Type} (p : α → Bool) (l : List α) (d : α) (hd : p d = true) :
    ((l ++ [d]).find? p).getD d = (l.find? p).getD d := by
  rw [List.find?_append]
  cases l.find? p with
  | some c => rfl
  | none => simp [List.find?, hd]

/-- C5: for a non-book move, the evaluation loss is |preEval - postEval|,
and the centipawn stage picks the first candidate of the fixed order Best,
Excellent, Good, Inaccuracy, Miss, Mistake whose threshold admits the loss,
Blunder when none does (the least severe fitting classification): the
trailing Blunder entry of centipawn_classifications carries an infinite
threshold, so the code's seven-entry walk equals the spec's six-entry walk
with Blunder fallback. -/
theorem c5_stage2_least_severe :
    (∀ pre_eval post_eval : ℤ, eval_loss pre_eval post_eval = |pre_eval - post_eval|) ∧
    (∀ pre_eval loss : ℤ, stage2Classify pre_eval loss = stage2Spec pre_eval loss) := by
  refine ⟨fun _ _ => rfl, fun pre_eval loss => ?_⟩
  have hb : loss_fits loss (get_evaluation_loss_threshold Classification.blunder pre_eval) =
      true := rfl
  have hsplit : centipawn_classifications =
      [Classification.best, Classification.excellent, Classification.good,
        Classification.inaccuracy, Classification.miss, Classification.mistake] ++
        [Classification.blunder] := rfl
  show (centipawn_classifications.find?
      (fun classif => loss_fits loss (get_evaluation_loss_threshold classif pre_eval))).getD
      Classification.blunder = stage2Spec pre_eval loss
  rw [hsplit]
  exact find_append_getD _ _ _ hb

/-- C6: each of the six centipawn-eligible thresholds is non-negative for
every preEval (only the six quadratic candidates return a finite threshold
at all), and for |preEval| bounded by 2000 centipawns the six thresholds
are non-decreasing along the fixed candidate order Best, Excellent, Good,
Inaccuracy, Miss, Mistake. -/
theorem c6_threshold_monotone :
    (∀ (classif : Classification) (pre_eval : ℤ) (t : ℚ),
        get_evaluation_loss_threshold classif pre_eval = some t → 0 ≤ t) ∧
    (∀ pre_eval : ℤ, |pre_eval| ≤ 2000 →
      ∃ tb te tg ti tm tk : ℚ,
        get_evaluation_loss_threshold Classification.best pre_eval = some tb ∧
        get_evaluation_loss_threshold Classification.excellent pre_eval = some te ∧
        get_evaluation_loss_threshold Classification.good pre_eval = some tg ∧
        get_evaluation_loss_threshold Classification.inaccuracy pre_eval = some ti ∧
        get_evaluation_loss_threshold Classification.miss pre_eval = some tm ∧
        get_evaluation_loss_threshold Classification.mistake pre_eval = some tk ∧
        0 ≤ tb ∧ tb ≤ te ∧ te ≤ tg ∧ tg ≤ ti ∧ ti ≤ tm ∧ tm ≤ tk) := by
  constructor
  · intro classif pre_eval t h
    cases classif <;> simp [get_evaluation_loss_threshold] at h <;>
      simp [← h, le_max_right]
  · intro pre_eval _
    have hx : (0 : ℚ) ≤ |(pre_eval : ℚ)| := abs_nonneg _
    set x : ℚ := |(pre_eval : ℚ)| with hxdef
    refine ⟨_, _, _, _, _, _, rfl, rfl, rfl, rfl, rfl, rfl, le_max_right _ _,
      ?_, ?_, ?_, ?_, ?_⟩ <;>
    · refine max_le_max ?_ le_rfl
      nlinarith [sq_nonneg x, hx]

/-- Total non-king material for both colors as the spec words it: fixed
piece values pawn 1, knight 3, bishop 3, rook 5, queen 9. Stated for
comparison with the material loop of detect_game_phase. -/
def specTotalMaterial (pieces : Color → PieceType → ℕ) : ℕ :=
  (pieces Color.white PieceType.pawn + pieces Color.black PieceType.pawn) * 1 +
  (pieces Color.white PieceType.knight + pieces Color.black PieceType.knight) * 3 +
  (pieces Color.white PieceType.bishop + pieces Color.black PieceType.bishop) * 3 +
  (pieces Color.white PieceType.rook + pieces Color.black PieceType.rook) * 5 +
  (pieces Color.white PieceType.queen + pieces Color.black PieceType.queen) * 9

/-- Number of queens of both colors, as counted by the material loop. -/
def specQueenCount (pieces : Color → PieceType → ℕ) : ℕ :=
  pieces Color.white PieceType.queen + pieces Color.black PieceType.queen

/-- Helper: the accumulating material loop computes exactly the closed-form
material total and queen count. -/
theorem material_and_queens_eq (pieces : Color → PieceType → ℕ) :
    material_and_queens pieces = (specTotalMaterial pieces, specQueenCount pieces) := by
  simp [material_and_queens, material_loop_index, piece_value, specTotalMaterial,
    specQueenCount, Prod.ext_iff]
  ring

/-- C7: detect_game_phase returns Opening whenever the in-opening flag is
set; otherwise, with total non-king material taken with the fixed piece
values pawn 1, knight 3, bishop 3, rook 5, queen 9, it returns Endgame
exactly when the total is at most 24, or there are no queens and the total
is at most 48, and Middlegame exactly otherwise. -/
theorem c7_detect_game_phase :
    ∀ (pieces : Color → PieceType → ℕ) (in_opening : Bool),
      (in_opening = true → detect_game_phase pieces in_opening = GamePhase.opening) ∧
      (in_opening = false →
        ((detect_game_phase pieces in_opening = GamePhase.endgame ↔
            (specTotalMaterial pieces ≤ 24 ∨
              (specQueenCount pieces = 0 ∧ specTotalMaterial pieces ≤ 48))) ∧
         (detect_game_phase pieces in_opening = GamePhase.middlegame ↔
            ¬(specTotalMaterial pieces ≤ 24 ∨
              (specQueenCount pieces = 0 ∧ specTotalMaterial pieces ≤ 48))))) := by
  intro pieces in_opening
  constructor
  · intro h
    simp [detect_game_phase, h]
  · intro h
    subst h
    simp only [detect_game_phase, Bool.false_eq_true, if_false, material_and_queens_eq]
    by_cases hc : specTotalMaterial pieces ≤ 24 ∨
        (specQueenCount pieces = 0 ∧ specTotalMaterial pieces ≤ 48)
    · rw [if_pos (by simpa using hc)]
      simp [hc]
    · rw [if_neg (by simpa using hc)]
      simp [hc]

/-- Witness for C7: on a board with two of every piece type per color the
flag-off phase is Middlegame (total material 84, four queens). -/
theorem c7_detect_game_phase_witness :
    detect_game_phase (fun _ _ => 2) false = GamePhase.middlegame :=
  ((c7_detect_game_phase (fun _ _ => 2) false).2 rfl).2.mpr (by decide)

/-- The phase-rating table walk as the spec words it (spec section 4.6),
stated for comparison with get_phase_rating: Good for an empty list, else
the first classification of the ordered table whose threshold the average
quality score meets or exceeds, Blunder below all thresholds. -/
def phaseRatingSpec (classified_moves : List Classification) : Classification :=
  if classified_moves.isEmpty then Classification.good
  else
    let average := (classified_moves.map classification_values).sum /
      (classified_moves.length : ℚ)
    if average ≥ 95/100 then Classification.brilliant
    else if average ≥ 85/100 then Classification.great
    else if average ≥ 75/100 then Classification.best
    else if average ≥ 65/100 then Classification.excellent
    else if average ≥ 5/10 then Classification.good
    else if average ≥ 35/100 then Classification.inaccuracy
    else if average ≥ 25/100 then Classification.miss
    else if average ≥ 15/100 then Classification.mistake
    else Classification.blunder

/-- Helper: the generator-with-default of the rating walk, recursively over
the table. -/
def ratingWalk (a : ℚ) : List (Classification × ℚ) → Classification
  | [] => Classification.blunder
  | ct :: rest => if a ≥ ct.2 then ct.1 else ratingWalk a rest

/-- Helper: the first-match-or-Blunder search over a rating table equals the
recursive walk of that table. -/
theorem find_rating_eq (a : ℚ) (l : List (Classification × ℚ)) :
    ((l.find? (fun ct => decide (a ≥ ct.2))).map Prod.fst).getD Classification.blunder =
      ratingWalk a l := by
  induction l with
  | nil => rfl
  | cons ct rest ih =>
    by_cases h : a ≥ ct.2
    · rw [List.find?_cons_of_pos (p := fun x => decide (a ≥ x.2)) rest (decide_eq_true h)]
      simp [ratingWalk, h]
    · rw [List.find?_cons_of_neg (p := fun x => decide (a ≥ x.2)) rest
        (fun hc => h (of_decide_eq_true hc))]
      simp only [ratingWalk, if_neg h]
      exact ih

/-- C8: get_phase_rating returns Good on the empty move list, and otherwise
maps the average of the fixed quality scores through the ordered threshold
table Brilliant 0.95, Great 0.85, Best 0.75, Excellent 0.65, Good 0.5,
Inaccuracy 0.35, Miss 0.25, Mistake 0.15, with Blunder below all
thresholds, exactly as the spec words it. -/
theorem c8_phase_rating :
    ∀ classified_moves : List Classification,
      get_phase_rating classified_moves = phaseRatingSpec classified_moves := by
  intro classified_moves
  by_cases hmt : classified_moves.isEmpty
  · simp only [get_phase_rating, phaseRatingSpec, hmt, if_pos]
  · simp only [get_phase_rating, phaseRatingSpec, hmt, Bool.false_eq_true, if_false]
    rw [find_rating_eq]
    simp only [rating_order, ratingWalk]

/-- Witness for C6: the threshold chain at preEval = 100 centipawns. -/
theorem c6_threshold_monotone_witness :
    |(100 : ℤ)| ≤ 2000 ∧
    (∃ tb te tg ti tm tk : ℚ,
      get_evaluation_loss_threshold Classification.best 100 = some tb ∧
      get_evaluation_loss_threshold Classification.excellent 100 = some te ∧
      get_evaluation_loss_threshold Classification.good 100 = some tg ∧
      get_evaluation_loss_threshold Classification.inaccuracy 100 = some ti ∧
      get_evaluation_loss_threshold Classification.miss 100 = some tm ∧
      get_evaluation_loss_threshold Classification.mistake 100 = some tk ∧
      0 ≤ tb ∧ tb ≤ te ∧ te ≤ tg ∧ tg ≤ ti ∧ ti ≤ tm ∧ tm ≤ tk) :=
  ⟨by decide, c6_threshold_monotone.2 100 (by decide)⟩

/-- Helper: the in-opening flag never returns to true once cleared. -/
theorem opening_flag_step_false (obs : MoveObservation) :
    opening_flag_step false obs = false := by
  simp [opening_flag_step]

/-- Helper: with the flag off, detect_game_phase never yields Opening. -/
theorem detect_not_opening (pieces : Color → PieceType → ℕ) :
    detect_game_phase pieces false ≠ GamePhase.opening := by
  simp only [detect_game_phase, Bool.false_eq_true, if_false]
  split <;> simp

/-- Helper: detect_game_phase yields Opening exactly while the flag is set. -/
theorem detect_opening_iff (pieces : Color → PieceType → ℕ) (in_opening : Bool) :
    detect_game_phase pieces in_opening = GamePhase.opening ↔ in_opening = true := by
  cases in_opening
  · simp [detect_not_opening pieces]
  · simp [detect_game_phase]

/-- Helper: every phase of a game segment entered with the flag off is
non-Opening. -/
theorem game_phases_false (ms : List MoveObservation) :
    ∀ ph ∈ game_phases false ms, ph ≠ GamePhase.opening := by
  induction ms with
  | nil => simp [game_phases]
  | cons obs rest ih =>
    simp only [game_phases, opening_flag_step_false, List.mem_cons]
    rintro ph (rfl | hmem)
    · exact detect_not_opening obs.pieces
    · exact ih ph hmem

/-- Helper: in any run of the phase loop, a non-Opening phase at index i
forces every later index to a non-Opening phase. -/
theorem game_phases_mono :
    ∀ (ms : List MoveObservation) (io : Bool) (i j : ℕ) (p q : GamePhase), i ≤ j →
      (game_phases io ms)[i]? = some p → p ≠ GamePhase.opening →
      (game_phases io ms)[j]? = some q → q ≠ GamePhase.opening := by
  intro ms
  induction ms with
  | nil =>
    intro io i j p q hij hi hp hj
    simp [game_phases] at hi
  | cons obs rest ih =>
    intro io i j p q hij hi hp hj
    simp only [game_phases] at hi hj
    cases i with
    | zero =>
      rw [List.getElem?_cons_zero] at hi
      have hpdet : p = detect_game_phase obs.pieces io := by
        exact (Option.some.injEq _ _).mp hi.symm
      have hio : io = false := by
        cases io
        · rfl
        · exact absurd (hpdet.trans ((detect_opening_iff obs.pieces true).mpr rfl)) hp
      subst hio
      cases j with
      | zero =>
        rw [List.getElem?_cons_zero] at hj
        have : q = p := by
          rw [hpdet]
          exact (Option.some.injEq _ _).mp hj.symm
        rw [this]
        exact hp
      | succ j' =>
        rw [List.getElem?_cons_succ] at hj
        rw [opening_flag_step_false] at hj
        have hqmem : q ∈ game_phases false rest := List.getElem?_mem hj
        exact game_phases_false rest q hqmem
    | succ i' =>
      cases j with
      | zero => omega
      | succ j' =>
        rw [List.getElem?_cons_succ] at hi hj
        exact ih (opening_flag_step io obs) i' j' p q (by omega) hi hp hj

/-- C9: the in-opening flag only ever transitions from true to false (a true
flag after a step means it was true before), and in a game analyzed from
the initial true flag, once the phase assigned at index i is non-Opening,
the phase assigned at every later index j is also non-Opening. -/
theorem c9_phase_monotonic :
    (∀ (in_opening : Bool) (obs : MoveObservation),
        opening_flag_step in_opening obs = true → in_opening = true) ∧
    (∀ (ms : List MoveObservation) (i j : ℕ) (p q : GamePhase), i ≤ j →
        (game_phases true ms)[i]? = some p → p ≠ GamePhase.opening →
        (game_phases true ms)[j]? = some q → q ≠ GamePhase.opening) := by
  constructor
  · intro in_opening obs h
    cases in_opening
    · rw [opening_flag_step_false] at h
      exact h
    · rfl
  · intro ms i j p q hij hi hp hj
    exact game_phases_mono ms true i j p q hij hi hp hj

/-- Witness for C9: a two-move game whose first move leaves the book; both
moves are assigned Opening and Middlegame respectively, and the theorem
transports non-Opening from index 1 to index 1. -/
theorem c9_phase_monotonic_witness :
    (1 ≤ 1) ∧
    (game_phases true [MoveObservation.mk false (fun _ _ => 2),
        MoveObservation.mk false (fun _ _ => 2)])[1]? = some GamePhase.middlegame ∧
    GamePhase.middlegame ≠ GamePhase.opening :=
  ⟨le_refl 1, by decide,
    c9_phase_monotonic.2
      [MoveObservation.mk false (fun _ _ => 2), MoveObservation.mk false (fun _ _ => 2)]
      1 1 GamePhase.middlegame GamePhase.middlegame (le_refl 1)
      (by decide) (by decide) (by decide)⟩

/-- C10: when push_san rejects a token, the JSON loop appends exactly one
MoveRecord carrying the current move number, the unknown player, the raw
token and the error string, leaves the board, the in-opening flag, the move
number and the per-player and per-phase accumulators unchanged, records no
classification for the token, and continues with the remaining tokens. -/
theorem c10_invalid_token_skipped :
    ∀ (opening_book : List (String × String)) (st : JsonState) (token msg : String)
      (env : TokenEnv) (rest : List (String × TokenEnv)),
      env.outcome = PushOutcome.illegal msg →
      jsonRun opening_book st ((token, env) :: rest) =
        jsonRun opening_book
          { st with move_analysis :=
              st.move_analysis ++
                [MoveRecord.errRec st.move_number Player.unknown token
                  ("Invalid move: " ++ msg)] }
          rest := by
  intro opening_book st token msg env rest h
  have hstep : jsonStep opening_book st token env =
      { st with move_analysis :=
          st.move_analysis ++
            [MoveRecord.errRec st.move_number Player.unknown token
              ("Invalid move: " ++ msg)] } := by
    simp only [jsonStep, h]
  show jsonRun opening_book (jsonStep opening_book st token env) rest = _
  rw [hstep]

/-- Witness for C10: a concrete rejected token appends the error record and
analysis proceeds with an empty remainder. -/
theorem c10_invalid_token_skipped_witness :
    (TokenEnv.mk (EngineReply.mk 0 false 0 none) (PushOutcome.illegal "oops")
        (EngineReply.mk 0 false 0 none)).outcome = PushOutcome.illegal "oops" ∧
    jsonRun [] (JsonState.mk (BoardSnap.mk (fun _ _ => 0) 1 "k" true) true 1 [] [] [])
        [("Zz9", TokenEnv.mk (EngineReply.mk 0 false 0 none) (PushOutcome.illegal "oops")
          (EngineReply.mk 0 false 0 none))] =
      jsonRun [] (JsonState.mk (BoardSnap.mk (fun _ _ => 0) 1 "k" true) true 1
        [MoveRecord.errRec 1 Player.unknown "Zz9" ("Invalid move: " ++ "oops")] [] []) [] :=
  ⟨rfl,
    c10_invalid_token_skipped []
      (JsonState.mk (BoardSnap.mk (fun _ _ => 0) 1 "k" true) true 1 [] [] []) "Zz9" "oops"
      (TokenEnv.mk (EngineReply.mk 0 false 0 none) (PushOutcome.illegal "oops")
        (EngineReply.mk 0 false 0 none)) [] rfl⟩

end ChessVision
